import Mathlib

/-!
A shallow embedding of the minigo GTP client (`src/cc/gtp_client.cc`) and
proofs about its command dispatch, argument validation, ponder scheduler and
handler behaviour.  External collaborators (the MCTS player, the SGF parser,
file reading, coordinate conversion) are not part of the visible sources;
they are modelled abstractly, and the theorems quantify over them.
-/

namespace Minigo

/-- Modelled from the spec: the stone colors of the two players (`cc/color.h`
is outside the visible sources). -/
inductive Color where
  | kBlack
  | kWhite
deriving DecidableEq, Repr

/-- The ponder mode `GtpClient::PonderType` declared in `cc/gtp_client.h` and
used throughout `gtp_client.cc`. -/
inductive PonderType where
  | kOff
  | kReadLimited
  | kTimeLimited
deriving DecidableEq, Repr

/-- Modelled from the spec: absl time points as used for the ponder deadline.
`absl::InfinitePast()` compares below every finite time; finite times are
modelled as rationals. -/
inductive ATime where
  | infinitePast
  | finite (t : ℚ)
deriving DecidableEq, Repr

/-- The comparison `absl::Now() >= ponder_time_limit_` from
`GtpClient::MaybePonder` (gtp_client.cc:163): a finite now is past
`infinitePast`, and past a finite limit iff the limit is at most now. -/
def ATime.reached (limit : ATime) (now : ℚ) : Bool :=
  match limit with
  | .infinitePast => true
  | .finite t => decide (t ≤ now)

/-- Modelled from the spec: the GTP `Response` value with fields ok, done,
optional cmd_id and the body string (the struct itself lives in
`cc/gtp_client.h`, outside the visible sources; section 3 of the spec gives
its shape). -/
structure Response where
  ok : Bool
  done : Bool
  cmd_id : Option Int
  str : String
deriving DecidableEq, Repr

/-- Modelled from the spec: the `Response::Ok` factory, optionally carrying a
body (the empty body stands for the no-payload overload). -/
def Response.Ok (body : String) : Response := ⟨true, false, none, body⟩

/-- Modelled from the spec: the `Response::Error` factory; the heterogeneous
message pieces of the C++ variadic overload arrive already concatenated. -/
def Response.Error (msg : String) : Response := ⟨false, false, none, msg⟩

/-- Modelled from the spec: the `Response::Done` factory used by the special
cased "quit" command. -/
def Response.Done : Response := ⟨true, true, none, ""⟩

/-- Modelled from the spec: `Response::set_cmd_id`, attaching the echoed
request tag. -/
def Response.set_cmd_id (r : Response) (id : Int) : Response :=
  ⟨r.ok, r.done, some id, r.str⟩

/-- The separator set of the `absl::StrSplit` call in `GtpClient::HandleCmd`
(gtp_client.cc:204): space, tab, CR and LF. -/
def isSep (c : Char) : Bool := c == ' ' || c == '\t' || c == '\r' || c == '\n'

/-- Splitting helper: accumulate the characters of the current token in
reverse, emitting a token at each separator and dropping empty tokens. -/
def splitTokens : List Char → List Char → List String
  | [], acc => if acc.isEmpty then [] else [String.mk acc.reverse]
  | c :: cs, acc =>
    if isSep c then
      if acc.isEmpty then splitTokens cs []
      else String.mk acc.reverse :: splitTokens cs []
    else splitTokens cs (c :: acc)

/-- The tokenization performed by `GtpClient::HandleCmd`
(gtp_client.cc:203-204): `absl::StrSplit` on any of space, tab, CR and LF
with `absl::SkipWhitespace`, which discards empty and all-whitespace
tokens. -/
def tokenize (line : String) : List String := splitTokens line.data []

/-- Numeric value of a run of decimal digits. -/
def digitsVal (cs : List Char) : Nat :=
  cs.foldl (fun a c => a * 10 + (c.toNat - 48)) 0

/-- Modelled from the spec: the digit run accepted by the absl
string-to-number conversions - one or more decimal digits. -/
def parseDigits (cs : List Char) : Option Nat :=
  if (!cs.isEmpty) && cs.all Char.isDigit then some (digitsVal cs) else none

/-- Modelled from the spec: `absl::SimpleAtoi` into a C int - an optional
sign followed by decimal digits, rejecting values outside the 32-bit
range. -/
def SimpleAtoi (s : String) : Option Int :=
  match s.data with
  | '+' :: rest =>
    match parseDigits rest with
    | some n => if n ≤ 2147483647 then some (n : Int) else none
    | none => none
  | '-' :: rest =>
    match parseDigits rest with
    | some n => if n ≤ 2147483648 then some (-(n : Int)) else none
    | none => none
  | cs =>
    match parseDigits cs with
    | some n => if n ≤ 2147483647 then some (n : Int) else none
    | none => none

/-- Value of an integer part and a fractional digit part as a rational. -/
def decimalVal (intPart fracPart : List Char) : ℚ :=
  mkRat (digitsVal intPart * 10 ^ fracPart.length + digitsVal fracPart)
    (10 ^ fracPart.length)

/-- Modelled from the spec: the unsigned part of the absl float syntax -
decimal digits with at most one decimal point and at least one digit. -/
def parseDecimal (cs : List Char) : Option ℚ :=
  match cs.splitOn '.' with
  | [p] =>
    if (!p.isEmpty) && p.all Char.isDigit then some (decimalVal p []) else none
  | [p, q] =>
    if (!(p.isEmpty && q.isEmpty)) && p.all Char.isDigit && q.all Char.isDigit then
      some (decimalVal p q)
    else none
  | _ => none

/-- Modelled from the spec: `absl::SimpleAtod`, modelled over the rationals -
an optional sign followed by a decimal number. -/
def SimpleAtod (s : String) : Option ℚ :=
  match s.data with
  | '+' :: rest => parseDecimal rest
  | '-' :: rest => (parseDecimal rest).map Neg.neg
  | cs => parseDecimal cs

/-- Modelled from the spec: `absl::SimpleAtof`, same decimal syntax with
float values modelled as rationals. -/
def SimpleAtof (s : String) : Option ℚ := SimpleAtod s

/-- Modelled from the spec: the mutable compute-budget options of the search
player (`MctsPlayer::Options`, outside the visible sources): readout count,
parallelism factor (virtual losses) and seconds per move. -/
structure PlayerOptions where
  num_readouts : Int
  virtual_losses : Int
  seconds_per_move : ℚ
deriving DecidableEq, Repr

/-- Modelled from the spec: the externally owned search player and the game
it drives (`MctsPlayer`, outside the visible sources): its options, the move
history of the current game, and the observable state of the search-tree
root - read count `N()`, `game_over()`, the color `to_play()` and the move
that created the root. -/
structure Player where
  opts : PlayerOptions
  moves : List Nat
  rootN : Int
  gameOver : Bool
  toPlay : Color
  lastMove : Nat
deriving DecidableEq, Repr

/-- Modelled from the spec: the observable state of the game record (`Game`,
outside the visible sources): its game-over flag, its result string and the
komi option. -/
structure GameRec where
  gameOver : Bool
  resultString : String
  komi : ℚ
deriving DecidableEq, Repr

/-- `GtpClient::Options` (declared in `cc/gtp_client.h` and mutated by
`HandlePonder`): the ponder read limit and the courtesy-pass and tree-reuse
flags. -/
structure Options where
  ponder_limit : Int
  courtesy_pass : Bool
  tree_reuse : Bool
deriving DecidableEq, Repr

/-- The mutable members of `GtpClient` that the command handlers and the
ponder scheduler read and write (`cc/gtp_client.h`, used throughout
`gtp_client.cc`). -/
structure GtpState where
  game : GameRec
  player : Player
  options : Options
  ponder_type : PonderType
  ponder_read_count : Int
  ponder_time_limit : ATime
  ponder_duration : ℚ
  ponder_limit_reached : Bool
deriving DecidableEq, Repr

/-- Modelled from the spec: the collaborator interfaces the client drives
(section 6 of the spec): search-player operations, game-record reset,
scoring, coordinate conversion, SGF parsing and file reading.  An SGF tree
is modelled by its extracted main line of moves.  The handlers are
parametric in this record and the theorems quantify over it. -/
structure Collab where
  playMove : Player → Nat → Option Player
  undoMove : Player → Option Player
  suggestMove : Player → Int → Nat × Player
  treeSearch : Int → Int → Player → Player
  clearChildren : Player → Player
  newGamePlayer : Player → Player
  newGameRec : GameRec → GameRec
  calculateScore : Player → ℚ → ℚ
  formatScore : ℚ → String
  prettyString : Player → String
  modelName : String
  fromGtp : String → Option Nat
  toGtp : Nat → String
  readFile : String → Option String
  sgfTrees : String → Option (List (List Nat))

/-- Modelled from the spec: the compiled-in board size `kN`
(`cc/constants.h`, outside the visible sources). -/
def kN : Int := 19

/-- Modelled from the spec: the pass coordinate `Coord::kPass`
(`cc/coord.h`, outside the visible sources). -/
def kPass : Nat := 361

/-- Modelled from the spec: the invalid coordinate `Coord::kInvalid`
(`cc/coord.h`, outside the visible sources). -/
def kInvalid : Nat := 362

/-- `std::numeric_limits<int>::max()`, the step cap `GtpClient::Ponder`
passes to `TreeSearch` (gtp_client.cc:181). -/
def intMax : Int := 2147483647

/-- `GtpClient::CheckArgsExact` (gtp_client.cc:233-240). -/
def CheckArgsExact (expected_num_args : Nat) (args : List String) : Response :=
  if args.length ≠ expected_num_args then
    Response.Error ("expected " ++ toString expected_num_args ++ " args, got " ++
      toString args.length ++ " args: " ++ String.intercalate " " args)
  else Response.Ok ""

/-- `GtpClient::CheckArgsRange` (gtp_client.cc:242-251). -/
def CheckArgsRange (expected_min_args expected_max_args : Nat)
    (args : List String) : Response :=
  if args.length < expected_min_args ∨ args.length > expected_max_args then
    Response.Error ("expected between " ++ toString expected_min_args ++ " and " ++
      toString expected_max_args ++ " args, got " ++ toString args.length ++
      " args: " ++ String.intercalate " " args)
  else Response.Ok ""

/-- `GtpClient::MaybeStartPondering` (gtp_client.cc:143-151); the `now`
argument models the `absl::Now()` call of the time-limited branch. -/
def MaybeStartPondering (now : ℚ) (s : GtpState) : GtpState :=
  if s.ponder_type ≠ PonderType.kOff then
    let s1 := { s with ponder_limit_reached := false, ponder_read_count := 0 }
    if s.ponder_type = PonderType.kTimeLimited then
      { s1 with ponder_time_limit := ATime.finite (now + s.ponder_duration) }
    else s1
  else s

/-- `GtpClient::NewGame` (gtp_client.cc:138-141): reset the player and its
game record, then re-arm the ponder scheduler. -/
def NewGame (C : Collab) (now : ℚ) (s : GtpState) : GtpState :=
  MaybeStartPondering now
    { s with player := C.newGamePlayer s.player, game := C.newGameRec s.game }

/-- `GtpClient::Ponder` (gtp_client.cc:176-185): one bounded tree-search
increment; the ponder read count advances by the change in the root read
count. -/
def Ponder (C : Collab) (s : GtpState) : GtpState :=
  let n := s.player.rootN
  let p1 := C.treeSearch s.player.opts.virtual_losses intMax s.player
  { s with player := p1, ponder_read_count := s.ponder_read_count + (p1.rootN - n) }

/-- `GtpClient::MaybePonder` (gtp_client.cc:153-174). -/
def MaybePonder (C : Collab) (now : ℚ) (s : GtpState) : GtpState × Bool :=
  if s.player.gameOver = true ∨ s.ponder_type = PonderType.kOff ∨
      s.ponder_limit_reached = true then
    (s, false)
  else if (s.ponder_type = PonderType.kReadLimited ∧
        s.ponder_read_count ≥ s.options.ponder_limit) ∨
      (s.ponder_type = PonderType.kTimeLimited ∧
        s.ponder_time_limit.reached now = true) then
    ({ s with ponder_limit_reached := true }, false)
  else
    (Ponder C s, true)

/-- The single `SuggestMove` run of `GtpClient::HandleBenchmark`
(gtp_client.cc:286-290): set the temporary options, suggest one move under
them, then restore the saved options. -/
def benchmarkRun (C : Collab) (s : GtpState) (temp_options : PlayerOptions) :
    GtpState × Response :=
  let saved_options := s.player.opts
  let p1 := { s.player with opts := temp_options }
  let p2 := (C.suggestMove p1 temp_options.num_readouts).2
  let p3 := { p2 with opts := saved_options }
  ({ s with player := p3 }, Response.Ok "")

/-- `GtpClient::HandleBenchmark` (gtp_client.cc:262-291). -/
def HandleBenchmark (C : Collab) (s : GtpState) (args : List String) :
    GtpState × Response :=
  let r := CheckArgsRange 0 2 args
  if r.ok = false then (s, r)
  else
    let saved_options := s.player.opts
    if args.length > 0 then
      match SimpleAtoi (args.headD "") with
      | none => (s, Response.Error "bad num_readouts")
      | some nr =>
        let t1 := { saved_options with seconds_per_move := 0, num_readouts := nr }
        if args.length = 2 then
          match SimpleAtoi (args.getD 1 "") with
          | none => (s, Response.Error "bad virtual_losses")
          | some vl => benchmarkRun C s { t1 with virtual_losses := vl }
        else benchmarkRun C s t1
    else benchmarkRun C s saved_options

/-- `GtpClient::HandleBoardsize` (gtp_client.cc:293-305). -/
def HandleBoardsize (s : GtpState) (args : List String) : GtpState × Response :=
  let r := CheckArgsExact 1 args
  if r.ok = false then (s, r)
  else
    match SimpleAtoi (args.headD "") with
    | none => (s, Response.Error "unacceptable size")
    | some x =>
      if x ≠ kN then (s, Response.Error "unacceptable size")
      else (s, Response.Ok "")

/-- `GtpClient::HandleClearBoard` (gtp_client.cc:307-314). -/
def HandleClearBoard (C : Collab) (now : ℚ) (s : GtpState)
    (args : List String) : GtpState × Response :=
  let r := CheckArgsExact 0 args
  if r.ok = false then (s, r)
  else (NewGame C now s, Response.Ok "")

/-- `GtpClient::HandleFinalScore` (gtp_client.cc:316-330). -/
def HandleFinalScore (C : Collab) (s : GtpState) (args : List String) :
    GtpState × Response :=
  let r := CheckArgsExact 0 args
  if r.ok = false then (s, r)
  else if s.game.gameOver = false then
    (s, Response.Ok (C.formatScore (C.calculateScore s.player s.game.komi)))
  else (s, Response.Ok s.game.resultString)

/-- `GtpClient::HandleGenmove` (gtp_client.cc:332-358); `none` models the
process abort when `MG_CHECK(player_->PlayMove(c))` fails. -/
def HandleGenmove (C : Collab) (now : ℚ) (s : GtpState) (args : List String) :
    Option (GtpState × Response) :=
  let r := CheckArgsRange 0 1 args
  if r.ok = false then some (s, r)
  else if s.player.gameOver = true then some (s, Response.Error "game is over")
  else
    let cp : Nat × Player :=
      if s.options.courtesy_pass = true ∧ s.player.lastMove = kPass then
        (kPass, s.player)
      else
        let p0 := if s.options.tree_reuse = false then C.clearChildren s.player
                  else s.player
        C.suggestMove p0 p0.opts.num_readouts
    match C.playMove cp.2 cp.1 with
    | none => none
    | some p2 =>
      some (MaybeStartPondering now { s with player := p2 },
        Response.Ok (C.toGtp cp.1))

/-- The registry membership test used by `HandleKnownCommand`
(gtp_client.cc:366), over the names registered in the constructor
(gtp_client.cc:54-68), in registration order. -/
def registeredCmds : List String :=
  ["benchmark", "boardsize", "clear_board", "final_score", "genmove",
   "known_command", "komi", "list_commands", "loadsgf", "name", "play",
   "ponder", "readouts", "showboard", "undo"]

/-- `GtpClient::HandleKnownCommand` (gtp_client.cc:360-372). -/
def HandleKnownCommand (s : GtpState) (args : List String) :
    GtpState × Response :=
  let r := CheckArgsExact 1 args
  if r.ok = false then (s, r)
  else if registeredCmds.contains (args.headD "") then (s, Response.Ok "true")
  else (s, Response.Ok "false")

/-- `GtpClient::HandleKomi` (gtp_client.cc:374-386). -/
def HandleKomi (s : GtpState) (args : List String) : GtpState × Response :=
  let r := CheckArgsExact 1 args
  if r.ok = false then (s, r)
  else
    match SimpleAtod (args.headD "") with
    | none => (s, Response.Error "unacceptable komi")
    | some x =>
      if x ≠ s.game.komi then (s, Response.Error "unacceptable komi")
      else (s, Response.Ok "")

/-- `GtpClient::HandleListCommands` (gtp_client.cc:388-401), parametrized by
the order in which the registry map happens to be iterated; `std::sort` is
modelled by insertion sort, which likewise produces a lexicographically
sorted permutation of its input. -/
def HandleListCommandsOver (names : List String) (s : GtpState)
    (args : List String) : GtpState × Response :=
  let r := CheckArgsExact 0 args
  if r.ok = false then (s, r)
  else
    let cmds := List.insertionSort (fun a b => a ≤ b) names
    (s, { r with str := String.intercalate "\n" cmds })

/-- `GtpClient::HandleListCommands` applied to the actual registry. -/
def HandleListCommands (s : GtpState) (args : List String) :
    GtpState × Response :=
  HandleListCommandsOver registeredCmds s args

/-- The replay loop of `GtpClient::ReplaySgf` (gtp_client.cc:192-197): play
the moves one by one; the first rejected move aborts with the error
"Cannot load file". -/
def replayMoves (C : Collab) (p : Player) : List Nat → Player × Response
  | [] => (p, Response.Ok "")
  | c :: cs =>
    match C.playMove p c with
    | none => (p, Response.Error "Cannot load file")
    | some p1 => replayMoves C p1 cs

/-- `GtpClient::ReplaySgf` (gtp_client.cc:187-200): replay the extracted
main line of the first tree, if any. -/
def ReplaySgf (C : Collab) (trees : List (List Nat)) (p : Player) :
    Player × Response :=
  match trees with
  | [] => (p, Response.Ok "")
  | t :: _ => replayMoves C p t

/-- `GtpClient::ParseSgf` (gtp_client.cc:563-575): both a failed parse and a
failed tree extraction report "cannot load file". -/
def ParseSgf (C : Collab) (sgf_str : String) :
    Option (List (List Nat)) × Response :=
  match C.sgfTrees sgf_str with
  | none => (none, Response.Error "cannot load file")
  | some trees => (some trees, Response.Ok "")

/-- `GtpClient::HandleLoadsgf` (gtp_client.cc:403-423): read the file, parse
it, reset to a new game and replay the record. -/
def HandleLoadsgf (C : Collab) (now : ℚ) (s : GtpState) (args : List String) :
    GtpState × Response :=
  let r := CheckArgsExact 1 args
  if r.ok = false then (s, r)
  else
    match C.readFile (args.headD "") with
    | none => (s, Response.Error "cannot load file")
    | some contents =>
      match ParseSgf C contents with
      | (none, r2) => (s, r2)
      | (some trees, _) =>
        let s1 := NewGame C now s
        let pr := ReplaySgf C trees s1.player
        ({ s1 with player := pr.1 }, pr.2)

/-- `GtpClient::HandleName` (gtp_client.cc:425-431). -/
def HandleName (C : Collab) (s : GtpState) (args : List String) :
    GtpState × Response :=
  let r := CheckArgsExact 0 args
  if r.ok = false then (s, r)
  else (s, Response.Ok ("minigo-" ++ C.modelName))

/-- `GtpClient::HandlePlay` (gtp_client.cc:433-466); `none` models the
out-of-bounds `args[0][0]` read on an empty token (the tokenizer never
produces empty tokens, so this cannot arise from `HandleCmd`). -/
def HandlePlay (C : Collab) (s : GtpState) (args : List String) :
    Option (GtpState × Response) :=
  let r := CheckArgsExact 2 args
  if r.ok = false then some (s, r)
  else if s.player.gameOver = true then some (s, Response.Error "game is over")
  else
    match (args.headD "").data.head? with
    | none => none
    | some ch =>
      let colorOpt : Option Color :=
        if ch.toLower = 'b' then some Color.kBlack
        else if ch.toLower = 'w' then some Color.kWhite
        else none
      match colorOpt with
      | none => some (s, Response.Error "illegal move")
      | some color =>
        if color ≠ s.player.toPlay then
          some (s, Response.Error "out of turn moves are not yet supported")
        else
          match C.fromGtp (args.getD 1 "") with
          | none => some (s, Response.Error "illegal move")
          | some c =>
            match C.playMove s.player c with
            | none => some (s, Response.Error "illegal move")
            | some p1 => some ({ s with player := p1 }, Response.Ok "")

/-- `GtpClient::HandlePonder` (gtp_client.cc:468-518). -/
def HandlePonder (now : ℚ) (s : GtpState) (args : List String) :
    GtpState × Response :=
  let r := CheckArgsRange 1 2 args
  if r.ok = false then (s, r)
  else if args.headD "" = "off" then
    ({ s with
        ponder_type := PonderType.kOff, ponder_read_count := 0,
        options := { s.options with ponder_limit := 0 },
        ponder_duration := 0, ponder_time_limit := ATime.infinitePast,
        ponder_limit_reached := true }, Response.Ok "")
  else
    let r2 := CheckArgsExact 2 args
    if r2.ok = false then (s, r2)
    else if args.headD "" = "reads" then
      match SimpleAtoi (args.getD 1 "") with
      | none => (s, Response.Error "couldn't parse read limit")
      | some read_limit =>
        if read_limit ≤ 0 then (s, Response.Error "couldn't parse read limit")
        else
          ({ s with
              options := { s.options with ponder_limit := read_limit },
              ponder_type := PonderType.kReadLimited, ponder_read_count := 0,
              ponder_limit_reached := false }, Response.Ok "")
    else if args.headD "" = "time" then
      match SimpleAtof (args.getD 1 "") with
      | none => (s, Response.Error "couldn't parse time limit")
      | some duration =>
        if duration ≤ 0 then (s, Response.Error "couldn't parse time limit")
        else
          ({ s with
              ponder_type := PonderType.kTimeLimited,
              ponder_duration := duration,
              ponder_time_limit := ATime.finite (now + duration),
              ponder_limit_reached := false }, Response.Ok "")
    else (s, Response.Error "unrecognized ponder mode")

/-- `GtpClient::HandleReadouts` (gtp_client.cc:520-536). -/
def HandleReadouts (s : GtpState) (args : List String) : GtpState × Response :=
  let r := CheckArgsExact 1 args
  if r.ok = false then (s, r)
  else
    match SimpleAtoi (args.headD "") with
    | none =>
      (s, Response.Error ("couldn't parse " ++ args.headD "" ++
        " as an integer > 0"))
    | some x =>
      if x ≤ 0 then
        (s, Response.Error ("couldn't parse " ++ args.headD "" ++
          " as an integer > 0"))
      else
        ({ s with
            player := { s.player with
              opts := { s.player.opts with num_readouts := x } } },
         Response.Ok "")

/-- `GtpClient::HandleShowboard` (gtp_client.cc:538-545). -/
def HandleShowboard (C : Collab) (s : GtpState) (args : List String) :
    GtpState × Response :=
  let r := CheckArgsExact 0 args
  if r.ok = false then (s, r)
  else (s, Response.Ok ("\n" ++ C.prettyString s.player))

/-- `GtpClient::HandleUndo` (gtp_client.cc:547-561). -/
def HandleUndo (C : Collab) (s : GtpState) (args : List String) :
    GtpState × Response :=
  let r := CheckArgsExact 0 args
  if r.ok = false then (s, r)
  else
    match C.undoMove s.player with
    | none => (s, Response.Error "cannot undo")
    | some p1 =>
      let p2 := if s.options.tree_reuse = false then C.clearChildren p1 else p1
      ({ s with player := p2 }, Response.Ok "")

/-- `GtpClient::DispatchCmd` (gtp_client.cc:253-260) together with the
registration in the constructor (gtp_client.cc:54-68).  `none` models a
crashed handler; every failure the code reports flows back as a `Response`
with `ok = false`. -/
def DispatchCmd (C : Collab) (now : ℚ) (s : GtpState) (cmd : String)
    (args : List String) : Option (GtpState × Response) :=
  if cmd = "benchmark" then some (HandleBenchmark C s args)
  else if cmd = "boardsize" then some (HandleBoardsize s args)
  else if cmd = "clear_board" then some (HandleClearBoard C now s args)
  else if cmd = "final_score" then some (HandleFinalScore C s args)
  else if cmd = "genmove" then HandleGenmove C now s args
  else if cmd = "known_command" then some (HandleKnownCommand s args)
  else if cmd = "komi" then some (HandleKomi s args)
  else if cmd = "list_commands" then some (HandleListCommands s args)
  else if cmd = "loadsgf" then some (HandleLoadsgf C now s args)
  else if cmd = "name" then some (HandleName C s args)
  else if cmd = "play" then HandlePlay C s args
  else if cmd = "ponder" then some (HandlePonder now s args)
  else if cmd = "readouts" then some (HandleReadouts s args)
  else if cmd = "showboard" then some (HandleShowboard C s args)
  else if cmd = "undo" then some (HandleUndo C s args)
  else some (s, Response.Error "unknown command")

/-- The command-or-quit step of `GtpClient::HandleCmd`
(gtp_client.cc:218-224): "quit" short-circuits dispatch. -/
def runCmd (C : Collab) (now : ℚ) (s : GtpState) (cmd : String)
    (args : List String) : Option (GtpState × Response) :=
  if cmd = "quit" then some (s, Response.Done)
  else DispatchCmd C now s cmd args

/-- `GtpClient::HandleCmd` (gtp_client.cc:202-231).  `none` models undefined
behavior: after a leading integer token has been stripped (line 213) the
code reads `args[0]` (line 215) without checking that a command name
remains. -/
def HandleCmd (C : Collab) (now : ℚ) (s : GtpState) (line : String) :
    Option (GtpState × Response) :=
  match tokenize line with
  | [] => some (s, Response.Ok "")
  | first :: rest =>
    match SimpleAtoi first with
    | some cmd_id =>
      match rest with
      | [] => none
      | cmd :: cmdArgs =>
        match runCmd C now s cmd cmdArgs with
        | none => none
        | some sr => some (sr.1, sr.2.set_cmd_id cmd_id)
    | none =>
      match runCmd C now s first rest with
      | none => none
      | some sr => some (sr.1, sr.2)

/-- A concrete collaborator instance used to evaluate the model on concrete
inputs: move 0 is rejected as illegal, every other move is appended to the
history; each tree-search increment adds seven reads at the root. -/
def demoCollab : Collab where
  playMove := fun p c =>
    if c = 0 then none else some { p with moves := p.moves ++ [c] }
  undoMove := fun p =>
    match p.moves with
    | [] => none
    | _ => some { p with moves := p.moves.dropLast }
  suggestMove := fun p _ => (1, p)
  treeSearch := fun _ _ p => { p with rootN := p.rootN + 7 }
  clearChildren := fun p => p
  newGamePlayer := fun p =>
    { p with
      moves := [], rootN := 0, gameOver := false,
      toPlay := Color.kBlack, lastMove := kInvalid }
  newGameRec := fun g => { g with gameOver := false }
  calculateScore := fun _ _ => 0
  formatScore := fun _ => "B+0.5"
  prettyString := fun _ => "board"
  modelName := "demo"
  fromGtp := fun t =>
    if t = "pass" then some kPass else if t = "q4" then some 42 else none
  toGtp := fun _ => "Q4"
  readFile := fun _ => some "sgf-content"
  sgfTrees := fun _ => some [[1, 0]]

/-- A concrete client options value for evaluation. -/
def demoOptions : Options := ⟨0, false, true⟩

/-- A concrete player options value for evaluation. -/
def demoPlayerOptions : PlayerOptions := ⟨100, 8, 0⟩

/-- A concrete player with one move already on record. -/
def demoPlayer : Player := ⟨demoPlayerOptions, [9], 0, false, Color.kBlack, kInvalid⟩

/-- A concrete game record for evaluation. -/
def demoGame : GameRec := ⟨false, "", 7.5⟩

/-- A concrete session state with pondering off. -/
def demoState : GtpState :=
  ⟨demoGame, demoPlayer, demoOptions, PonderType.kOff, 0, ATime.infinitePast, 0, false⟩

/-- The demo state with the game already over. -/
def demoOverState : GtpState :=
  { demoState with player := { demoPlayer with gameOver := true } }

/-- A state pondering in read-limited mode that has already accumulated five
reads towards a limit of one hundred. -/
def pondState : GtpState :=
  { demoState with
    ponder_type := PonderType.kReadLimited, ponder_read_count := 5,
    options := { demoOptions with ponder_limit := 100 } }

/-- The read-limited demo state with its budget of one hundred reads fully
consumed. -/
def pondDoneState : GtpState := { pondState with ponder_read_count := 100 }

/-- A sequence of idle-loop iterations: each tick runs `MaybePonder` at the
given clock reading and keeps the resulting state. -/
def maybePonderTrace (C : Collab) (s : GtpState) (ticks : List ℚ) : GtpState :=
  ticks.foldl (fun st now => (MaybePonder C now st).1) s

/-- C6: `CheckArgsExact n` succeeds exactly on `n`-element argument lists and
otherwise fails with a message naming the expected and the actual count;
`CheckArgsRange lo hi` succeeds exactly when the length lies in the
inclusive range and otherwise fails with a message naming both bounds and
the actual count. -/
theorem checkArgs_spec (n lo hi : Nat) (args : List String) :
    ((CheckArgsExact n args).ok = true ↔ args.length = n) ∧
    (args.length ≠ n →
      (CheckArgsExact n args).str =
        "expected " ++ toString n ++ " args, got " ++ toString args.length ++
          " args: " ++ String.intercalate " " args) ∧
    ((CheckArgsRange lo hi args).ok = true ↔
      lo ≤ args.length ∧ args.length ≤ hi) ∧
    (args.length < lo ∨ hi < args.length →
      (CheckArgsRange lo hi args).str =
        "expected between " ++ toString lo ++ " and " ++ toString hi ++
          " args, got " ++ toString args.length ++ " args: " ++
          String.intercalate " " args) := by
  unfold CheckArgsExact CheckArgsRange
  refine ⟨?_, ?_, ?_, ?_⟩ <;> split <;>
    simp_all [Response.Ok, Response.Error] <;> omega

/-- Witness for C6 at concrete inputs: one argument list rejected by
`CheckArgsExact 2` and one rejected by `CheckArgsRange 1 2`. -/
theorem checkArgs_spec_witness :
    (CheckArgsExact 2 ["a"]).str =
      "expected " ++ toString 2 ++ " args, got " ++
        toString (["a"] : List String).length ++ " args: " ++
        String.intercalate " " ["a"] ∧
    (CheckArgsRange 1 2 ["a", "b", "c"]).str =
      "expected between " ++ toString 1 ++ " and " ++ toString 2 ++
        " args, got " ++ toString (["a", "b", "c"] : List String).length ++
        " args: " ++ String.intercalate " " ["a", "b", "c"] :=
  ⟨(checkArgs_spec 2 1 2 ["a"]).2.1 (by decide),
   (checkArgs_spec 2 1 2 ["a", "b", "c"]).2.2.2 (by decide)⟩

/-- C5: the benchmark handler leaves the player's compute-budget options
(readout count, parallelism factor, seconds per move) as they were before
the call, on every path; the single `SuggestMove` run of `benchmarkRun`
always restores the saved options afterwards. -/
theorem benchmark_restores_options (C : Collab) (s : GtpState)
    (args : List String) (temp : PlayerOptions) :
    (HandleBenchmark C s args).1.player.opts = s.player.opts ∧
    (benchmarkRun C s temp).1.player.opts = s.player.opts := by
  unfold HandleBenchmark benchmarkRun
  refine ⟨?_, rfl⟩
  repeat first | rfl | split | dsimp only

/-- C9: with correct arity, a terminal position makes the play handler fail
with "game is over", leaving the session untouched, before any color or
coordinate validation happens. -/
theorem play_game_over (C : Collab) (s : GtpState) (args : List String)
    (hlen : args.length = 2) (hover : s.player.gameOver = true) :
    HandlePlay C s args = some (s, Response.Error "game is over") := by
  unfold HandlePlay CheckArgsExact
  simp [hlen, hover, Response.Ok]

/-- Witness for C9: playing into the finished demo game fails with
"game is over" and does not touch the session. -/
theorem play_game_over_witness :
    HandlePlay demoCollab demoOverState ["b", "q4"] =
      some (demoOverState, Response.Error "game is over") :=
  play_game_over demoCollab demoOverState ["b", "q4"] rfl rfl

/-- C8 evaluated at the failing input: the line "5" consists of a single
integer token; the code strips it as the command id and then reads `args[0]`
of the now-empty token vector, modelled as the crash value `none`. -/
theorem handleCmd_id_only_line_crashes :
    HandleCmd demoCollab 0 demoState "5" = none := rfl

/-- C1 fails on the code: a load of a record whose replay hits an illegal
move returns the failure "Cannot load file", yet the session differs from
the one before the handler ran (the game was reset and the legal prefix
replayed). -/
theorem loadsgf_replay_failure_mutates :
    (HandleLoadsgf demoCollab 0 demoState ["game.sgf"]).2 =
      Response.Error "Cannot load file" ∧
    (HandleLoadsgf demoCollab 0 demoState ["game.sgf"]).1.player.moves ≠
      demoState.player.moves :=
  ⟨rfl, by decide⟩

/-- C3 fails on the code: the one-argument list with the unrecognized
sub-argument "foo" is answered by the arity failure of `CheckArgsExact 2`,
not by "unrecognized ponder mode". -/
theorem ponder_one_arg_arity_error :
    (HandlePonder 0 demoState ["foo"]).2 =
      Response.Error "expected 2 args, got 1 args: foo" ∧
    Response.Error "expected 2 args, got 1 args: foo" ≠
      Response.Error "unrecognized ponder mode" :=
  ⟨rfl, by decide⟩

/-- C10 fails on the code: re-arming via "ponder time 10" succeeds, switches
to the time-limited mode and clears the limit flag, yet the ponder read
count keeps its old value five instead of being reset to zero. -/
theorem ponder_time_rearm_keeps_count :
    (HandlePonder 0 pondState ["time", "10"]).2.ok = true ∧
    (HandlePonder 0 pondState ["time", "10"]).1.ponder_type =
      PonderType.kTimeLimited ∧
    (HandlePonder 0 pondState ["time", "10"]).1.ponder_limit_reached = false ∧
    (HandlePonder 0 pondState ["time", "10"]).1.ponder_read_count = 5 ∧
    (5 : Int) ≠ 0 :=
  ⟨rfl, rfl, rfl, rfl, by decide⟩

/-- C2: `MaybePonder` performs no work and returns false when the position
is terminal, the mode is off or the limit flag is set; an exhausted budget
(read count at or past the limit, or the deadline reached) sets the flag and
returns false; otherwise exactly one tree-search increment runs, the read
count advances by the reads that increment performed at the root, and the
call returns true. -/
theorem maybePonder_spec (C : Collab) (now : ℚ) (s : GtpState) :
    (s.player.gameOver = true ∨ s.ponder_type = PonderType.kOff ∨
        s.ponder_limit_reached = true →
      MaybePonder C now s = (s, false)) ∧
    (¬(s.player.gameOver = true ∨ s.ponder_type = PonderType.kOff ∨
        s.ponder_limit_reached = true) →
      ((s.ponder_type = PonderType.kReadLimited ∧
          s.ponder_read_count ≥ s.options.ponder_limit) ∨
        (s.ponder_type = PonderType.kTimeLimited ∧
          s.ponder_time_limit.reached now = true) →
        MaybePonder C now s =
          ({ s with ponder_limit_reached := true }, false)) ∧
      (¬((s.ponder_type = PonderType.kReadLimited ∧
            s.ponder_read_count ≥ s.options.ponder_limit) ∨
          (s.ponder_type = PonderType.kTimeLimited ∧
            s.ponder_time_limit.reached now = true)) →
        MaybePonder C now s =
          ({ s with
              player := C.treeSearch s.player.opts.virtual_losses intMax
                s.player,
              ponder_read_count := s.ponder_read_count +
                ((C.treeSearch s.player.opts.virtual_losses intMax
                    s.player).rootN - s.player.rootN) }, true))) := by
  unfold MaybePonder Ponder
  refine ⟨fun h => ?_, fun h => ⟨fun h2 => ?_, fun h2 => ?_⟩⟩
  · rw [if_pos h]
  · rw [if_neg h, if_pos h2]
  · rw [if_neg h, if_neg h2]

/-- Witness for C2: the off demo state does nothing; the exhausted
read-limited state trips the limit flag; the active read-limited state runs
one increment of the demo tree search. -/
theorem maybePonder_spec_witness :
    MaybePonder demoCollab 0 demoState = (demoState, false) ∧
    MaybePonder demoCollab 0 pondDoneState =
      ({ pondDoneState with ponder_limit_reached := true }, false) ∧
    MaybePonder demoCollab 0 pondState =
      ({ pondState with
          player := demoCollab.treeSearch pondState.player.opts.virtual_losses
            intMax pondState.player,
          ponder_read_count := pondState.ponder_read_count +
            ((demoCollab.treeSearch pondState.player.opts.virtual_losses
                intMax pondState.player).rootN -
              pondState.player.rootN) }, true) :=
  ⟨(maybePonder_spec demoCollab 0 demoState).1 (Or.inr (Or.inl rfl)),
   ((maybePonder_spec demoCollab 0 pondDoneState).2 (by decide)).1
     (Or.inl ⟨rfl, by decide⟩),
   ((maybePonder_spec demoCollab 0 pondState).2 (by decide)).2 (by decide)⟩

/-- One `MaybePonder` step never changes the difference between the ponder
read count and the root read count: either nothing changes, or only the
limit flag flips, or both advance by the same amount. -/
theorem maybePonder_count_delta (C : Collab) (now : ℚ) (s : GtpState) :
    (MaybePonder C now s).1.ponder_read_count -
        (MaybePonder C now s).1.player.rootN =
      s.ponder_read_count - s.player.rootN := by
  unfold MaybePonder Ponder
  split
  · rfl
  · split
    · rfl
    · dsimp only; ring

/-- Any sequence of idle-loop `MaybePonder` steps preserves the difference
between the ponder read count and the root read count. -/
theorem maybePonderTrace_delta (C : Collab) (ticks : List ℚ) (s : GtpState) :
    (maybePonderTrace C s ticks).ponder_read_count -
        (maybePonderTrace C s ticks).player.rootN =
      s.ponder_read_count - s.player.rootN := by
  induction ticks generalizing s with
  | nil => rfl
  | cons t ts ih =>
    have h1 := ih (MaybePonder C t s).1
    have h2 := maybePonder_count_delta C t s
    simp only [maybePonderTrace, List.foldl_cons] at h1 ⊢
    omega

/-- Arming read-limited pondering with a valid positive limit. -/
theorem handlePonder_reads (now : ℚ) (s : GtpState) (a1 : String) (n : Int)
    (hparse : SimpleAtoi a1 = some n) (hpos : 0 < n) :
    HandlePonder now s ["reads", a1] =
      ({ s with
          options := { s.options with ponder_limit := n },
          ponder_type := PonderType.kReadLimited, ponder_read_count := 0,
          ponder_limit_reached := false }, Response.Ok "") := by
  unfold HandlePonder
  repeat' split <;>
    simp_all [CheckArgsRange, CheckArgsExact, Response.Ok, Response.Error,
      List.getD_cons_succ, List.getD_cons_zero]

/-- A read limit that does not parse as a positive integer is rejected. -/
theorem handlePonder_reads_bad (now : ℚ) (s : GtpState) (a1 : String)
    (hbad : SimpleAtoi a1 = none ∨ ∃ n, SimpleAtoi a1 = some n ∧ n ≤ 0) :
    HandlePonder now s ["reads", a1] =
      (s, Response.Error "couldn't parse read limit") := by
  unfold HandlePonder
  repeat' split <;>
    simp_all [CheckArgsRange, CheckArgsExact, Response.Ok, Response.Error,
      List.getD_cons_succ, List.getD_cons_zero]

/-- Arming time-limited pondering with a valid positive duration. -/
theorem handlePonder_time (now : ℚ) (s : GtpState) (a1 : String) (d : ℚ)
    (hparse : SimpleAtof a1 = some d) (hpos : 0 < d) :
    HandlePonder now s ["time", a1] =
      ({ s with
          ponder_type := PonderType.kTimeLimited,
          ponder_duration := d,
          ponder_time_limit := ATime.finite (now + d),
          ponder_limit_reached := false }, Response.Ok "") := by
  unfold HandlePonder
  repeat' split <;>
    simp_all [CheckArgsRange, CheckArgsExact, Response.Ok, Response.Error,
      List.getD_cons_succ, List.getD_cons_zero]

/-- A time limit that does not parse as a positive duration is rejected. -/
theorem handlePonder_time_bad (now : ℚ) (s : GtpState) (a1 : String)
    (hbad : SimpleAtof a1 = none ∨ ∃ d, SimpleAtof a1 = some d ∧ d ≤ 0) :
    HandlePonder now s ["time", a1] =
      (s, Response.Error "couldn't parse time limit") := by
  unfold HandlePonder
  repeat' split <;>
    simp_all [CheckArgsRange, CheckArgsExact, Response.Ok, Response.Error,
      List.getD_cons_succ, List.getD_cons_zero]

/-- C10 amended: arming through a new game or through "ponder reads N"
resets the ponder read count to zero, but arming through "ponder time T"
keeps the prior count; each ponder increment advances the count by exactly
the change in the root read count, so over any sequence of idle ticks the
count minus the root read count is invariant; in particular, from a state
whose count is zero the count always equals the reads the root has
accumulated since then. -/
theorem ponder_count_accounting (C : Collab) (now : ℚ) (s : GtpState)
    (a1 : String) (n : Int) (ticks : List ℚ) :
    (s.ponder_type ≠ PonderType.kOff →
      (MaybeStartPondering now s).ponder_read_count = 0) ∧
    (SimpleAtoi a1 = some n → 0 < n →
      (HandlePonder now s ["reads", a1]).1.ponder_read_count = 0) ∧
    ((HandlePonder now s ["time", a1]).2.ok = true →
      (HandlePonder now s ["time", a1]).1.ponder_read_count =
        s.ponder_read_count) ∧
    ((Ponder C s).ponder_read_count =
      s.ponder_read_count +
        ((C.treeSearch s.player.opts.virtual_losses intMax s.player).rootN -
          s.player.rootN)) ∧
    ((maybePonderTrace C s ticks).ponder_read_count -
        (maybePonderTrace C s ticks).player.rootN =
      s.ponder_read_count - s.player.rootN) ∧
    (s.ponder_read_count = 0 →
      (maybePonderTrace C s ticks).ponder_read_count =
        (maybePonderTrace C s ticks).player.rootN - s.player.rootN) := by
  refine ⟨?_, ?_, ?_, rfl, maybePonderTrace_delta C ticks s, ?_⟩
  · intro h
    unfold MaybeStartPondering
    rw [if_pos h]
    split <;> rfl
  · intro hparse hpos
    rw [handlePonder_reads now s a1 n hparse hpos]
  · intro hok
    rcases hd : SimpleAtof a1 with _ | d
    · rw [handlePonder_time_bad now s a1 (Or.inl hd)] at hok
      simp [Response.Error] at hok
    · by_cases hpos : 0 < d
      · rw [handlePonder_time now s a1 d hd hpos]
      · rw [handlePonder_time_bad now s a1 (Or.inr ⟨d, hd, by linarith⟩)] at hok
        simp [Response.Error] at hok
  · intro h0
    have := maybePonderTrace_delta C ticks s
    omega

/-- Witness for C10 amended: arming the demo states concretely - a new-game
re-arm zeroes the count, "reads 50" zeroes it, "time 10" keeps it, and a
trace of two off-mode ticks satisfies the accounting identity. -/
theorem ponder_count_accounting_witness :
    (MaybeStartPondering 0 pondState).ponder_read_count = 0 ∧
    (HandlePonder 0 demoState ["reads", "50"]).1.ponder_read_count = 0 ∧
    (HandlePonder 0 pondState ["time", "10"]).1.ponder_read_count =
      pondState.ponder_read_count ∧
    (maybePonderTrace demoCollab demoState [0, 0]).ponder_read_count =
      (maybePonderTrace demoCollab demoState [0, 0]).player.rootN -
        demoState.player.rootN :=
  ⟨(ponder_count_accounting demoCollab 0 pondState "50" 50 []).1 (by decide),
   (ponder_count_accounting demoCollab 0 demoState "50" 50 []).2.1 rfl
     (by decide),
   (ponder_count_accounting demoCollab 0 pondState "10" 50 []).2.2.1 rfl,
   (ponder_count_accounting demoCollab 0 demoState "50" 50 [0, 0]).2.2.2.2.2
     rfl⟩

/-- A failing benchmark command leaves the session unchanged. -/
theorem benchmark_fail_frame (C : Collab) (s : GtpState) (args : List String) :
    (HandleBenchmark C s args).2.ok = false →
      (HandleBenchmark C s args).1 = s := by
  unfold HandleBenchmark benchmarkRun
  repeat first
    | (intro h; rfl)
    | split
    | dsimp only
    | (intro h; simp_all [Response.Ok, Response.Error])

/-- A failing boardsize command leaves the session unchanged. -/
theorem boardsize_fail_frame (s : GtpState) (args : List String) :
    (HandleBoardsize s args).2.ok = false → (HandleBoardsize s args).1 = s := by
  unfold HandleBoardsize
  repeat first
    | (intro h; rfl)
    | split
    | dsimp only
    | (intro h; simp_all [Response.Ok, Response.Error])

/-- A failing clear-board command leaves the session unchanged. -/
theorem clear_board_fail_frame (C : Collab) (now : ℚ) (s : GtpState)
    (args : List String) :
    (HandleClearBoard C now s args).2.ok = false →
      (HandleClearBoard C now s args).1 = s := by
  unfold HandleClearBoard
  repeat first
    | (intro h; rfl)
    | split
    | dsimp only
    | (intro h; simp_all [Response.Ok, Response.Error])

/-- A failing final-score command leaves the session unchanged. -/
theorem final_score_fail_frame (C : Collab) (s : GtpState)
    (args : List String) :
    (HandleFinalScore C s args).2.ok = false →
      (HandleFinalScore C s args).1 = s := by
  unfold HandleFinalScore
  repeat first
    | (intro h; rfl)
    | split
    | dsimp only
    | (intro h; simp_all [Response.Ok, Response.Error])

/-- A failing known-command query leaves the session unchanged. -/
theorem known_command_fail_frame (s : GtpState) (args : List String) :
    (HandleKnownCommand s args).2.ok = false →
      (HandleKnownCommand s args).1 = s := by
  unfold HandleKnownCommand
  repeat first
    | (intro h; rfl)
    | split
    | dsimp only
    | (intro h; simp_all [Response.Ok, Response.Error])

/-- A failing komi command leaves the session unchanged. -/
theorem komi_fail_frame (s : GtpState) (args : List String) :
    (HandleKomi s args).2.ok = false → (HandleKomi s args).1 = s := by
  unfold HandleKomi
  repeat first
    | (intro h; rfl)
    | split
    | dsimp only
    | (intro h; simp_all [Response.Ok, Response.Error])

/-- A failing list-commands command leaves the session unchanged. -/
theorem list_commands_fail_frame (s : GtpState) (args : List String) :
    (HandleListCommands s args).2.ok = false →
      (HandleListCommands s args).1 = s := by
  unfold HandleListCommands HandleListCommandsOver
  repeat first
    | (intro h; rfl)
    | split
    | dsimp only
    | (intro h; simp_all [Response.Ok, Response.Error])

/-- A failing name query leaves the session unchanged. -/
theorem name_fail_frame (C : Collab) (s : GtpState) (args : List String) :
    (HandleName C s args).2.ok = false → (HandleName C s args).1 = s := by
  unfold HandleName
  repeat first
    | (intro h; rfl)
    | split
    | dsimp only
    | (intro h; simp_all [Response.Ok, Response.Error])

/-- A failing ponder configuration leaves the session unchanged. -/
theorem ponder_fail_frame (now : ℚ) (s : GtpState) (args : List String) :
    (HandlePonder now s args).2.ok = false → (HandlePonder now s args).1 = s := by
  unfold HandlePonder
  repeat first
    | (intro h; rfl)
    | split
    | dsimp only
    | (intro h; simp_all [Response.Ok, Response.Error])

/-- A failing readouts command leaves the session unchanged. -/
theorem readouts_fail_frame (s : GtpState) (args : List String) :
    (HandleReadouts s args).2.ok = false → (HandleReadouts s args).1 = s := by
  unfold HandleReadouts
  repeat first
    | (intro h; rfl)
    | split
    | dsimp only
    | (intro h; simp_all [Response.Ok, Response.Error])

/-- A failing showboard command leaves the session unchanged. -/
theorem showboard_fail_frame (C : Collab) (s : GtpState)
    (args : List String) :
    (HandleShowboard C s args).2.ok = false →
      (HandleShowboard C s args).1 = s := by
  unfold HandleShowboard
  repeat first
    | (intro h; rfl)
    | split
    | dsimp only
    | (intro h; simp_all [Response.Ok, Response.Error])

/-- A failing undo command leaves the session unchanged. -/
theorem undo_fail_frame (C : Collab) (s : GtpState) (args : List String) :
    (HandleUndo C s args).2.ok = false → (HandleUndo C s args).1 = s := by
  unfold HandleUndo
  repeat first
    | (intro h; rfl)
    | split
    | dsimp only
    | (intro h; simp_all [Response.Ok, Response.Error])

/-- A play command that returns a failure leaves the session unchanged. -/
theorem play_fail_frame (C : Collab) (s : GtpState) (args : List String)
    (out : GtpState × Response) (hd : HandlePlay C s args = some out) :
    out.2.ok = false → out.1 = s := by
  unfold HandlePlay at hd
  dsimp only at hd
  split at hd
  · cases hd; intro hf; rfl
  split at hd
  · cases hd; intro hf; rfl
  split at hd
  · cases hd
  split at hd
  · cases hd; intro hf; rfl
  split at hd
  · cases hd; intro hf; rfl
  split at hd
  · cases hd; intro hf; rfl
  split at hd
  · cases hd; intro hf; rfl
  · cases hd; intro hf; simp [Response.Ok] at hf

/-- A genmove command that returns a failure leaves the session unchanged. -/
theorem genmove_fail_frame (C : Collab) (now : ℚ) (s : GtpState)
    (args : List String) (out : GtpState × Response)
    (hd : HandleGenmove C now s args = some out) :
    out.2.ok = false → out.1 = s := by
  unfold HandleGenmove at hd
  dsimp only at hd
  repeat first
    | (cases hd; intro hf; rfl)
    | (cases hd; intro hf; simp [Response.Ok] at hf)
    | (cases hd)
    | split at hd

/-- A failing replay always reports exactly "Cannot load file". -/
theorem replayMoves_fail_resp (C : Collab) (ms : List Nat) (p : Player) :
    (replayMoves C p ms).2.ok = false →
      (replayMoves C p ms).2 = Response.Error "Cannot load file" := by
  induction ms generalizing p with
  | nil => intro h; simp [replayMoves, Response.Ok] at h
  | cons c cs ih =>
    intro h
    unfold replayMoves at h ⊢
    rcases hm : C.playMove p c with _ | p1
    · rfl
    · rw [hm] at h
      exact ih p1 h

/-- A failing `ReplaySgf` always reports exactly "Cannot load file". -/
theorem replaySgf_fail_resp (C : Collab) (trees : List (List Nat))
    (p : Player) :
    (ReplaySgf C trees p).2.ok = false →
      (ReplaySgf C trees p).2 = Response.Error "Cannot load file" := by
  rcases trees with _ | ⟨t, rest⟩
  · intro h; simp [ReplaySgf, Response.Ok] at h
  · exact replayMoves_fail_resp C t p

/-- A failing load either left the session alone (arity, unreadable file,
unparseable record) or reported "Cannot load file" with the session reset to
a new game and the replayed prefix applied. -/
theorem loadsgf_fail_shape (C : Collab) (now : ℚ) (s : GtpState)
    (args : List String)
    (h : (HandleLoadsgf C now s args).2.ok = false) :
    (HandleLoadsgf C now s args).1 = s ∨
      ((HandleLoadsgf C now s args).2 = Response.Error "Cannot load file" ∧
        ∃ contents trees,
          C.readFile (args.headD "") = some contents ∧
          C.sgfTrees contents = some trees ∧
          (HandleLoadsgf C now s args).1 =
            { NewGame C now s with
              player := (ReplaySgf C trees (NewGame C now s).player).1 }) := by
  unfold HandleLoadsgf ParseSgf at h ⊢
  by_cases h1 : (CheckArgsExact 1 args).ok = false
  · rw [if_pos h1]
    exact Or.inl rfl
  · rw [if_neg h1] at h ⊢
    rcases hf : C.readFile (args.headD "") with _ | contents
    · exact Or.inl rfl
    · rw [hf] at h
      dsimp only at h ⊢
      rcases hp : C.sgfTrees contents with _ | trees
      · exact Or.inl rfl
      · rw [hp] at h
        dsimp only at h ⊢
        exact Or.inr ⟨replaySgf_fail_resp C trees (NewGame C now s).player h,
          contents, trees, rfl, hp, rfl⟩

/-- C1 amended: whenever a dispatched handler returns a failure Response the
session is unchanged, with a single exception - the load-record handler's
replay failure, which returns "Cannot load file" after the session has been
reset to a new game and the legal prefix of the record replayed. -/
theorem failing_handlers_preserve_session (C : Collab) (now : ℚ)
    (s : GtpState) (cmd : String) (args : List String)
    (out : GtpState × Response)
    (hd : DispatchCmd C now s cmd args = some out)
    (hfail : out.2.ok = false) :
    out.1 = s ∨
      (cmd = "loadsgf" ∧ out.2 = Response.Error "Cannot load file" ∧
        ∃ contents trees,
          C.readFile (args.headD "") = some contents ∧
          C.sgfTrees contents = some trees ∧
          out.1 = { NewGame C now s with
            player := (ReplaySgf C trees (NewGame C now s).player).1 }) := by
  unfold DispatchCmd at hd
  by_cases c1 : cmd = "benchmark"
  · rw [if_pos c1] at hd
    cases hd; exact Or.inl (benchmark_fail_frame C s args hfail)
  rw [if_neg c1] at hd
  by_cases c2 : cmd = "boardsize"
  · rw [if_pos c2] at hd
    cases hd; exact Or.inl (boardsize_fail_frame s args hfail)
  rw [if_neg c2] at hd
  by_cases c3 : cmd = "clear_board"
  · rw [if_pos c3] at hd
    cases hd; exact Or.inl (clear_board_fail_frame C now s args hfail)
  rw [if_neg c3] at hd
  by_cases c4 : cmd = "final_score"
  · rw [if_pos c4] at hd
    cases hd; exact Or.inl (final_score_fail_frame C s args hfail)
  rw [if_neg c4] at hd
  by_cases c5 : cmd = "genmove"
  · rw [if_pos c5] at hd
    exact Or.inl (genmove_fail_frame C now s args out hd hfail)
  rw [if_neg c5] at hd
  by_cases c6 : cmd = "known_command"
  · rw [if_pos c6] at hd
    cases hd; exact Or.inl (known_command_fail_frame s args hfail)
  rw [if_neg c6] at hd
  by_cases c7 : cmd = "komi"
  · rw [if_pos c7] at hd
    cases hd; exact Or.inl (komi_fail_frame s args hfail)
  rw [if_neg c7] at hd
  by_cases c8 : cmd = "list_commands"
  · rw [if_pos c8] at hd
    cases hd; exact Or.inl (list_commands_fail_frame s args hfail)
  rw [if_neg c8] at hd
  by_cases c9 : cmd = "loadsgf"
  · rw [if_pos c9] at hd
    cases hd
    rcases loadsgf_fail_shape C now s args hfail with hside | ⟨hresp, hex⟩
    · exact Or.inl hside
    · exact Or.inr ⟨c9, hresp, hex⟩
  rw [if_neg c9] at hd
  by_cases c10 : cmd = "name"
  · rw [if_pos c10] at hd
    cases hd; exact Or.inl (name_fail_frame C s args hfail)
  rw [if_neg c10] at hd
  by_cases c11 : cmd = "play"
  · rw [if_pos c11] at hd
    exact Or.inl (play_fail_frame C s args out hd hfail)
  rw [if_neg c11] at hd
  by_cases c12 : cmd = "ponder"
  · rw [if_pos c12] at hd
    cases hd; exact Or.inl (ponder_fail_frame now s args hfail)
  rw [if_neg c12] at hd
  by_cases c13 : cmd = "readouts"
  · rw [if_pos c13] at hd
    cases hd; exact Or.inl (readouts_fail_frame s args hfail)
  rw [if_neg c13] at hd
  by_cases c14 : cmd = "showboard"
  · rw [if_pos c14] at hd
    cases hd; exact Or.inl (showboard_fail_frame C s args hfail)
  rw [if_neg c14] at hd
  by_cases c15 : cmd = "undo"
  · rw [if_pos c15] at hd
    cases hd; exact Or.inl (undo_fail_frame C s args hfail)
  rw [if_neg c15] at hd
  cases hd; exact Or.inl rfl

/-- Witness for C1 amended: the failing boardsize command "boardsize 13"
leaves the demo session unchanged. -/
theorem failing_handlers_preserve_session_witness :
    demoState = demoState ∨
      ("boardsize" = "loadsgf" ∧
        Response.Error "unacceptable size" =
          Response.Error "Cannot load file" ∧
        ∃ contents trees,
          demoCollab.readFile ((["13"] : List String).headD "") =
            some contents ∧
          demoCollab.sgfTrees contents = some trees ∧
          demoState = { NewGame demoCollab 0 demoState with
            player := (ReplaySgf demoCollab trees
              (NewGame demoCollab 0 demoState).player).1 }) :=
  failing_handlers_preserve_session demoCollab 0 demoState "boardsize" ["13"]
    (demoState, Response.Error "unacceptable size") rfl rfl

/-- A two-argument ponder command whose sub-command is none of "off",
"reads" and "time" is answered with "unrecognized ponder mode". -/
theorem handlePonder_unrecognized (now : ℚ) (s : GtpState) (a0 a1 : String)
    (h0 : a0 ≠ "off") (h1 : a0 ≠ "reads") (h2 : a0 ≠ "time") :
    HandlePonder now s [a0, a1] =
      (s, Response.Error "unrecognized ponder mode") := by
  unfold HandlePonder
  repeat' split <;>
    simp_all [CheckArgsRange, CheckArgsExact, Response.Ok, Response.Error]

/-- A one-argument ponder command other than "off" fails with the arity
error of `CheckArgsExact 2`, before the sub-command is examined further. -/
theorem handlePonder_one_arg (now : ℚ) (s : GtpState) (a0 : String)
    (h0 : a0 ≠ "off") :
    HandlePonder now s [a0] = (s, CheckArgsExact 2 [a0]) ∧
    (CheckArgsExact 2 [a0]).ok = false := by
  constructor
  · unfold HandlePonder
    repeat' split <;>
      simp_all [CheckArgsRange, CheckArgsExact, Response.Ok, Response.Error]
  · simp [CheckArgsExact, Response.Error]

/-- C3 amended: only two-argument ponder commands with an unknown
sub-command produce "unrecognized ponder mode"; a one-argument command other
than "off" fails with the arity error instead; "off" disarms unconditionally
for both arities; "reads N" and "time T" arm their modes exactly when N is a
positive integer and T is a positive duration, and reject the argument
otherwise. -/
theorem ponder_mode_dispatch (now : ℚ) (s : GtpState) (a0 a1 : String) :
    (a0 ≠ "off" → a0 ≠ "reads" → a0 ≠ "time" →
      HandlePonder now s [a0, a1] =
        (s, Response.Error "unrecognized ponder mode")) ∧
    (a0 ≠ "off" →
      HandlePonder now s [a0] = (s, CheckArgsExact 2 [a0]) ∧
      (CheckArgsExact 2 [a0]).ok = false) ∧
    ((HandlePonder now s ["off"]).1.ponder_type = PonderType.kOff ∧
      (HandlePonder now s ["off"]).1.ponder_limit_reached = true ∧
      (HandlePonder now s ["off"]).2 = Response.Ok "" ∧
      (HandlePonder now s ["off", a1]).1.ponder_type = PonderType.kOff ∧
      (HandlePonder now s ["off", a1]).2 = Response.Ok "") ∧
    (∀ n : Int, SimpleAtoi a1 = some n → 0 < n →
      HandlePonder now s ["reads", a1] =
        ({ s with
            options := { s.options with ponder_limit := n },
            ponder_type := PonderType.kReadLimited, ponder_read_count := 0,
            ponder_limit_reached := false }, Response.Ok "")) ∧
    ((SimpleAtoi a1 = none ∨ ∃ n, SimpleAtoi a1 = some n ∧ n ≤ 0) →
      HandlePonder now s ["reads", a1] =
        (s, Response.Error "couldn't parse read limit")) ∧
    (∀ d : ℚ, SimpleAtof a1 = some d → 0 < d →
      HandlePonder now s ["time", a1] =
        ({ s with
            ponder_type := PonderType.kTimeLimited,
            ponder_duration := d,
            ponder_time_limit := ATime.finite (now + d),
            ponder_limit_reached := false }, Response.Ok "")) ∧
    ((SimpleAtof a1 = none ∨ ∃ d, SimpleAtof a1 = some d ∧ d ≤ 0) →
      HandlePonder now s ["time", a1] =
        (s, Response.Error "couldn't parse time limit")) :=
  ⟨fun h0 h1 h2 => handlePonder_unrecognized now s a0 a1 h0 h1 h2,
   fun h0 => handlePonder_one_arg now s a0 h0,
   ⟨rfl, rfl, rfl, rfl, rfl⟩,
   fun n hn hpos => handlePonder_reads now s a1 n hn hpos,
   fun hbad => handlePonder_reads_bad now s a1 hbad,
   fun d hd hpos => handlePonder_time now s a1 d hd hpos,
   fun hbad => handlePonder_time_bad now s a1 hbad⟩

/-- Witness for C3 amended: concrete ponder commands on the demo state - an
unknown two-argument sub-command, an unknown one-argument sub-command, a
valid read limit, a rejected read limit of zero, a valid time limit and an
unparseable time limit. -/
theorem ponder_mode_dispatch_witness :
    HandlePonder 0 demoState ["foo", "10"] =
      (demoState, Response.Error "unrecognized ponder mode") ∧
    HandlePonder 0 demoState ["foo"] =
      (demoState, CheckArgsExact 2 ["foo"]) ∧
    HandlePonder 0 demoState ["reads", "10"] =
      ({ demoState with
          options := { demoState.options with ponder_limit := 10 },
          ponder_type := PonderType.kReadLimited, ponder_read_count := 0,
          ponder_limit_reached := false }, Response.Ok "") ∧
    HandlePonder 0 demoState ["reads", "0"] =
      (demoState, Response.Error "couldn't parse read limit") ∧
    (HandlePonder 0 demoState ["time", "10"]).2 = Response.Ok "" ∧
    HandlePonder 0 demoState ["time", "abc"] =
      (demoState, Response.Error "couldn't parse time limit") := by
  refine ⟨(ponder_mode_dispatch 0 demoState "foo" "10").1 (by decide)
      (by decide) (by decide),
    ((ponder_mode_dispatch 0 demoState "foo" "10").2.1 (by decide)).1,
    (ponder_mode_dispatch 0 demoState "foo" "10").2.2.2.1 10 rfl (by decide),
    (ponder_mode_dispatch 0 demoState "foo" "0").2.2.2.2.1
      (Or.inr ⟨0, rfl, by decide⟩),
    ?_,
    (ponder_mode_dispatch 0 demoState "foo" "abc").2.2.2.2.2.2 (Or.inl rfl)⟩
  rw [(ponder_mode_dispatch 0 demoState "foo" "10").2.2.2.2.2.1 (mkRat 10 1)
    rfl (by decide)]

/-- C7: the list-commands handler succeeds and its body is a
lexicographically sorted permutation of the registered names joined by
newlines; its output is therefore identical for any two registration orders,
and for the actual registry it is the sorted, newline-joined name list. -/
theorem listCommands_sorted (names other : List String) (s s2 : GtpState) :
    (HandleListCommandsOver names s []).2.ok = true ∧
    (∃ sorted : List String, sorted.Perm names ∧
      List.Sorted (fun a b : String => a ≤ b) sorted ∧
      (HandleListCommandsOver names s []).2.str =
        String.intercalate "\n" sorted) ∧
    (names.Perm other →
      (HandleListCommandsOver names s []).2.str =
        (HandleListCommandsOver other s2 []).2.str) ∧
    (HandleListCommands s []).2.str =
      String.intercalate "\n"
        (List.insertionSort (fun a b : String => a ≤ b) registeredCmds) := by
  refine ⟨rfl,
    ⟨List.insertionSort (fun a b : String => a ≤ b) names,
      List.perm_insertionSort _ _, List.sorted_insertionSort _ _, rfl⟩,
    fun hp => ?_, rfl⟩
  have e : List.insertionSort (fun a b : String => a ≤ b) names =
      List.insertionSort (fun a b : String => a ≤ b) other :=
    List.eq_of_perm_of_sorted
      ((List.perm_insertionSort _ _).trans
        (hp.trans (List.perm_insertionSort _ other).symm))
      (List.sorted_insertionSort _ _) (List.sorted_insertionSort _ _)
  show String.intercalate "\n"
      (List.insertionSort (fun a b : String => a ≤ b) names) =
    String.intercalate "\n"
      (List.insertionSort (fun a b : String => a ≤ b) other)
  rw [e]

/-- Witness for C7: two registries holding the same names in opposite
orders produce identical list-commands output. -/
theorem listCommands_sorted_witness :
    (HandleListCommandsOver ["b", "a"] demoState []).2.str =
      (HandleListCommandsOver ["a", "b"] demoOverState []).2.str :=
  (listCommands_sorted ["b", "a"] ["a", "b"] demoState demoOverState).2.2.1
    (by decide)

/-- `CheckArgsExact` responses never carry a command id. -/
theorem checkArgsExact_cmd_id (n : Nat) (args : List String) :
    (CheckArgsExact n args).cmd_id = none := by
  unfold CheckArgsExact; split <;> rfl

/-- `CheckArgsRange` responses never carry a command id. -/
theorem checkArgsRange_cmd_id (lo hi : Nat) (args : List String) :
    (CheckArgsRange lo hi args).cmd_id = none := by
  unfold CheckArgsRange; split <;> rfl

/-- The benchmark handler never sets a command id itself. -/
theorem benchmark_cmd_id (C : Collab) (s : GtpState) (args : List String) :
    (HandleBenchmark C s args).2.cmd_id = none := by
  unfold HandleBenchmark benchmarkRun
  repeat first
    | rfl
    | (exact checkArgsExact_cmd_id _ _)
    | (exact checkArgsRange_cmd_id _ _ _)
    | split
    | dsimp only

/-- The boardsize handler never sets a command id itself. -/
theorem boardsize_cmd_id (s : GtpState) (args : List String) :
    (HandleBoardsize s args).2.cmd_id = none := by
  unfold HandleBoardsize
  repeat first
    | rfl
    | (exact checkArgsExact_cmd_id _ _)
    | (exact checkArgsRange_cmd_id _ _ _)
    | split
    | dsimp only

/-- The clear-board handler never sets a command id itself. -/
theorem clear_board_cmd_id (C : Collab) (now : ℚ) (s : GtpState)
    (args : List String) :
    (HandleClearBoard C now s args).2.cmd_id = none := by
  unfold HandleClearBoard
  repeat first
    | rfl
    | (exact checkArgsExact_cmd_id _ _)
    | (exact checkArgsRange_cmd_id _ _ _)
    | split
    | dsimp only

/-- The final-score handler never sets a command id itself. -/
theorem final_score_cmd_id (C : Collab) (s : GtpState) (args : List String) :
    (HandleFinalScore C s args).2.cmd_id = none := by
  unfold HandleFinalScore
  repeat first
    | rfl
    | (exact checkArgsExact_cmd_id _ _)
    | (exact checkArgsRange_cmd_id _ _ _)
    | split
    | dsimp only

/-- The known-command handler never sets a command id itself. -/
theorem known_command_cmd_id (s : GtpState) (args : List String) :
    (HandleKnownCommand s args).2.cmd_id = none := by
  unfold HandleKnownCommand
  repeat first
    | rfl
    | (exact checkArgsExact_cmd_id _ _)
    | (exact checkArgsRange_cmd_id _ _ _)
    | split
    | dsimp only

/-- The komi handler never sets a command id itself. -/
theorem komi_cmd_id (s : GtpState) (args : List String) :
    (HandleKomi s args).2.cmd_id = none := by
  unfold HandleKomi
  repeat first
    | rfl
    | (exact checkArgsExact_cmd_id _ _)
    | (exact checkArgsRange_cmd_id _ _ _)
    | split
    | dsimp only

/-- The list-commands handler never sets a command id itself. -/
theorem list_commands_cmd_id (s : GtpState) (args : List String) :
    (HandleListCommands s args).2.cmd_id = none := by
  unfold HandleListCommands HandleListCommandsOver
  repeat first
    | rfl
    | (exact checkArgsExact_cmd_id _ _)
    | (exact checkArgsRange_cmd_id _ _ _)
    | split
    | dsimp only

/-- The name handler never sets a command id itself. -/
theorem name_cmd_id (C : Collab) (s : GtpState) (args : List String) :
    (HandleName C s args).2.cmd_id = none := by
  unfold HandleName
  repeat first
    | rfl
    | (exact checkArgsExact_cmd_id _ _)
    | (exact checkArgsRange_cmd_id _ _ _)
    | split
    | dsimp only

/-- The ponder handler never sets a command id itself. -/
theorem ponder_cmd_id (now : ℚ) (s : GtpState) (args : List String) :
    (HandlePonder now s args).2.cmd_id = none := by
  unfold HandlePonder
  repeat first
    | rfl
    | (exact checkArgsExact_cmd_id _ _)
    | (exact checkArgsRange_cmd_id _ _ _)
    | split
    | dsimp only

/-- The readouts handler never sets a command id itself. -/
theorem readouts_cmd_id (s : GtpState) (args : List String) :
    (HandleReadouts s args).2.cmd_id = none := by
  unfold HandleReadouts
  repeat first
    | rfl
    | (exact checkArgsExact_cmd_id _ _)
    | (exact checkArgsRange_cmd_id _ _ _)
    | split
    | dsimp only

/-- The showboard handler never sets a command id itself. -/
theorem showboard_cmd_id (C : Collab) (s : GtpState) (args : List String) :
    (HandleShowboard C s args).2.cmd_id = none := by
  unfold HandleShowboard
  repeat first
    | rfl
    | (exact checkArgsExact_cmd_id _ _)
    | (exact checkArgsRange_cmd_id _ _ _)
    | split
    | dsimp only

/-- The undo handler never sets a command id itself. -/
theorem undo_cmd_id (C : Collab) (s : GtpState) (args : List String) :
    (HandleUndo C s args).2.cmd_id = none := by
  unfold HandleUndo
  repeat first
    | rfl
    | (exact checkArgsExact_cmd_id _ _)
    | (exact checkArgsRange_cmd_id _ _ _)
    | split
    | dsimp only

/-- The play handler never sets a command id itself. -/
theorem play_cmd_id (C : Collab) (s : GtpState) (args : List String)
    (out : GtpState × Response) (hd : HandlePlay C s args = some out) :
    out.2.cmd_id = none := by
  unfold HandlePlay at hd
  dsimp only at hd
  split at hd
  · cases hd; exact checkArgsExact_cmd_id 2 args
  split at hd
  · cases hd; rfl
  split at hd
  · cases hd
  split at hd
  · cases hd; rfl
  split at hd
  · cases hd; rfl
  split at hd
  · cases hd; rfl
  split at hd
  · cases hd; rfl
  · cases hd; rfl

/-- The genmove handler never sets a command id itself. -/
theorem genmove_cmd_id (C : Collab) (now : ℚ) (s : GtpState)
    (args : List String) (out : GtpState × Response)
    (hd : HandleGenmove C now s args = some out) :
    out.2.cmd_id = none := by
  unfold HandleGenmove at hd
  dsimp only at hd
  repeat first
    | (cases hd; rfl)
    | (cases hd; exact checkArgsRange_cmd_id 0 1 args)
    | (cases hd)
    | split at hd

/-- Replay responses never carry a command id. -/
theorem replayMoves_cmd_id (C : Collab) (ms : List Nat) (p : Player) :
    (replayMoves C p ms).2.cmd_id = none := by
  induction ms generalizing p with
  | nil => rfl
  | cons c cs ih =>
    unfold replayMoves
    rcases hm : C.playMove p c with _ | p1
    · rfl
    · exact ih p1

/-- The load-record handler never sets a command id itself. -/
theorem loadsgf_cmd_id (C : Collab) (now : ℚ) (s : GtpState)
    (args : List String) :
    (HandleLoadsgf C now s args).2.cmd_id = none := by
  unfold HandleLoadsgf ParseSgf
  by_cases h1 : (CheckArgsExact 1 args).ok = false
  · rw [if_pos h1]; exact checkArgsExact_cmd_id 1 args
  · rw [if_neg h1]
    rcases hf : C.readFile (args.headD "") with _ | contents
    · rfl
    · dsimp only
      rcases hp : C.sgfTrees contents with _ | trees
      · rfl
      · dsimp only
        rcases trees with _ | ⟨t, rest⟩
        · rfl
        · exact replayMoves_cmd_id C t _

/-- No dispatched handler response carries a command id of its own. -/
theorem dispatch_cmd_id_none (C : Collab) (now : ℚ) (s : GtpState)
    (cmd : String) (args : List String) (out : GtpState × Response)
    (hd : DispatchCmd C now s cmd args = some out) : out.2.cmd_id = none := by
  unfold DispatchCmd at hd
  by_cases c1 : cmd = "benchmark"
  · rw [if_pos c1] at hd; cases hd; exact benchmark_cmd_id C s args
  rw [if_neg c1] at hd
  by_cases c2 : cmd = "boardsize"
  · rw [if_pos c2] at hd; cases hd; exact boardsize_cmd_id s args
  rw [if_neg c2] at hd
  by_cases c3 : cmd = "clear_board"
  · rw [if_pos c3] at hd; cases hd; exact clear_board_cmd_id C now s args
  rw [if_neg c3] at hd
  by_cases c4 : cmd = "final_score"
  · rw [if_pos c4] at hd; cases hd; exact final_score_cmd_id C s args
  rw [if_neg c4] at hd
  by_cases c5 : cmd = "genmove"
  · rw [if_pos c5] at hd; exact genmove_cmd_id C now s args out hd
  rw [if_neg c5] at hd
  by_cases c6 : cmd = "known_command"
  · rw [if_pos c6] at hd; cases hd; exact known_command_cmd_id s args
  rw [if_neg c6] at hd
  by_cases c7 : cmd = "komi"
  · rw [if_pos c7] at hd; cases hd; exact komi_cmd_id s args
  rw [if_neg c7] at hd
  by_cases c8 : cmd = "list_commands"
  · rw [if_pos c8] at hd; cases hd; exact list_commands_cmd_id s args
  rw [if_neg c8] at hd
  by_cases c9 : cmd = "loadsgf"
  · rw [if_pos c9] at hd; cases hd; exact loadsgf_cmd_id C now s args
  rw [if_neg c9] at hd
  by_cases c10 : cmd = "name"
  · rw [if_pos c10] at hd; cases hd; exact name_cmd_id C s args
  rw [if_neg c10] at hd
  by_cases c11 : cmd = "play"
  · rw [if_pos c11] at hd; exact play_cmd_id C s args out hd
  rw [if_neg c11] at hd
  by_cases c12 : cmd = "ponder"
  · rw [if_pos c12] at hd; cases hd; exact ponder_cmd_id now s args
  rw [if_neg c12] at hd
  by_cases c13 : cmd = "readouts"
  · rw [if_pos c13] at hd; cases hd; exact readouts_cmd_id s args
  rw [if_neg c13] at hd
  by_cases c14 : cmd = "showboard"
  · rw [if_pos c14] at hd; cases hd; exact showboard_cmd_id C s args
  rw [if_neg c14] at hd
  by_cases c15 : cmd = "undo"
  · rw [if_pos c15] at hd; cases hd; exact undo_cmd_id C s args
  rw [if_neg c15] at hd
  cases hd; rfl

/-- Neither "quit" nor any dispatched handler sets a command id. -/
theorem runCmd_cmd_id (C : Collab) (now : ℚ) (s : GtpState) (cmd : String)
    (args : List String) (out : GtpState × Response)
    (hd : runCmd C now s cmd args = some out) : out.2.cmd_id = none := by
  unfold runCmd at hd
  by_cases hq : cmd = "quit"
  · rw [if_pos hq] at hd; cases hd; rfl
  · rw [if_neg hq] at hd
    exact dispatch_cmd_id_none C now s cmd args out hd

/-- C4: whenever `HandleCmd` returns a Response, that Response carries the
leading integer token of the line as its command id when there is one, and
no id otherwise - regardless of which path (quit, a handler, or the
unknown-command error) produced it. -/
theorem handleCmd_cmd_id (C : Collab) (now : ℚ) (s : GtpState) (line : String)
    (out : GtpState × Response) (h : HandleCmd C now s line = some out) :
    out.2.cmd_id =
      (match tokenize line with
        | [] => none
        | t :: _ => SimpleAtoi t) := by
  unfold HandleCmd at h
  rcases ht : tokenize line with _ | ⟨first, rest⟩
  · rw [ht] at h
    cases h; rfl
  · rw [ht] at h
    dsimp only at h ⊢
    rcases hi : SimpleAtoi first with _ | id
    · rw [hi] at h
      rcases hr : runCmd C now s first rest with _ | sr
      · rw [hr] at h; cases h
      · rw [hr] at h; cases h
        exact runCmd_cmd_id C now s first rest sr hr
    · rw [hi] at h
      rcases rest with _ | ⟨cmd, cmdArgs⟩
      · dsimp only at h
        cases h
      · dsimp only at h
        rcases hr : runCmd C now s cmd cmdArgs with _ | sr
        · rw [hr] at h; cases h
        · rw [hr] at h; cases h
          rfl

/-- Witness for C4: the line "1 known_command genmove" produces a success
response tagged with id one. -/
theorem handleCmd_cmd_id_witness :
    (Response.mk true false (some 1) "true").cmd_id =
      (match tokenize "1 known_command genmove" with
        | [] => none
        | t :: _ => SimpleAtoi t) :=
  handleCmd_cmd_id demoCollab 0 demoState "1 known_command genmove"
    (demoState, Response.mk true false (some 1) "true") rfl

end Minigo
